import Mathlib

/-!
# Verification of the qPCR relative-quantification pipeline (`qpycr.py`)

A shallow embedding of `src/qpycr.py` (pandas / numpy code) and proofs of the
specification's claims about it.

Modelling conventions:

* A pandas cell is a `Cell`: a string, a rational number, or NaN.  Floating
  point values are modelled as exact rationals with an explicit NaN
  (`Cell.nan`, or `none` at the `Option ℚ` level); all the arithmetic the
  program performs on them (sums, means, differences, divisions by counts)
  is exact on rationals, so the model is faithful up to rounding.
* A `pd.DataFrame` is a `RawFrame`: a list of named columns.
* pandas `mean` / `std` aggregations skip NaN entries (`skipna=True` is the
  pandas default): `nanMean` / `nanVarSq` below implement exactly that.
* The `std` column produced by `groupby(...).agg({"cq": ["mean", "std"]})`
  holds the square root of the rational sample variance (ddof = 1), which is
  irrational in general; the `stdSq` field of `AggRow` therefore stores the
  *square* of the `std` cell.  `std` is NaN exactly when `stdSq = none`.
* A pandas left merge whose right operand has unique keys (both merges in
  the source join against `groupby` outputs, which are keyed uniquely)
  keeps the left row order and attaches to each left row the statistics of
  the single matching right row, or NaN when none matches; `lookupOr`
  implements that lookup.
* Python's dynamic typing is modelled by `PyArg`; the `isinstance` checks of
  the source become matches on `PyArg`, and raised exceptions become
  `Except.error` values of type `PyErr`.
-/

/-- A pandas cell: a string, a (finite) float modelled as a rational, or NaN. -/
inductive Cell : Type
  | str (s : String)
  | num (q : ℚ)
  | nan
deriving DecidableEq

/-- Python exceptions raised by the source: `TypeError` from the explicit
`isinstance` validation, `KeyError` from `groupby`/`agg` on a missing column,
and `NameError` from the use of the undefined name `q` in
`calculate_dd_cqs` (line 141 of the source). -/
inductive PyErr : Type
  | typeError
  | keyError
  | nameError
deriving DecidableEq

/-- A pandas data frame: named columns of cells.  (In a real frame all
columns have equal length; the frames built by `toFrame` below do.) -/
structure RawFrame : Type where
  cols : List (String × List Cell)
deriving DecidableEq

/-- `df[name]`: look a column up by name, `none` when absent (pandas raises
`KeyError` at the use sites). -/
def RawFrame.col (df : RawFrame) (name : String) : Option (List Cell) :=
  (df.cols.find? (fun c => decide (c.1 = name))).map Prod.snd

/-- A dynamically-typed Python argument, as far as the source's `isinstance`
checks distinguish them: a `pd.DataFrame`, a `list` (of cells — the source
uses it as a list of target identifiers), a `str`, or anything else. -/
inductive PyArg : Type
  | frame (df : RawFrame)
  | pylist (l : List Cell)
  | pystr (s : String)
  | pyother
deriving DecidableEq

/-- A well-formed raw reading: a row of the input table, with string sample
and target identifiers and a float Cq value (`none` = NaN, a failed
reaction). -/
structure Reading : Type where
  sample : String
  target : String
  cq : Option ℚ
deriving DecidableEq

/-- A float cell from an optional rational (`none` = NaN). -/
def cqCell : Option ℚ → Cell
  | some q => Cell.num q
  | none => Cell.nan

/-- The data frame holding a list of well-formed readings, with the three
required columns `sample`, `target`, `cq`. -/
def toFrame (rs : List Reading) : RawFrame :=
  ⟨[("sample", rs.map (fun r => Cell.str r.sample)),
    ("target", rs.map (fun r => Cell.str r.target)),
    ("cq", rs.map (fun r => cqCell r.cq))]⟩

/-- One row of the frame passed to `calculate_avg_cqs`, after aligning the
three required columns. -/
structure RawRow : Type where
  sample : Cell
  target : Cell
  cq : Cell
deriving DecidableEq

/-- Align the `sample`, `target` and `cq` columns into rows. -/
def zipRows : List Cell → List Cell → List Cell → List RawRow
  | s :: ss, t :: ts, q :: qs => ⟨s, t, q⟩ :: zipRows ss ts qs
  | _, _, _ => []

/-- The grouping key of a row: its `(sample, target)` pair. -/
def rowKey (r : RawRow) : Cell × Cell :=
  (r.sample, r.target)

/-- Whether a cell is a Python string (a non-numeric entry of the `cq`
column makes the column `object`-typed, and pandas `mean`/`std` raise
`TypeError` on it). -/
def Cell.isStr : Cell → Bool
  | Cell.str _ => true
  | _ => false

/-- The float value of a cell: NaN for `Cell.nan` (strings are rejected
before this is consulted). -/
def cellFloat : Cell → Option ℚ
  | Cell.num q => some q
  | _ => none

/-- Helper for `dropDuplicates`: drop the elements met before (`seen`),
keep the first occurrence of each new element. -/
def dropDupAux {α : Type} [DecidableEq α] (seen : List α) : List α → List α
  | [] => []
  | a :: l => if a ∈ seen then dropDupAux seen l else a :: dropDupAux (a :: seen) l

/-- `drop_duplicates()` on a list: keep the first occurrence of each
element, in first-occurrence order. -/
def dropDuplicates {α : Type} [DecidableEq α] (l : List α) : List α :=
  dropDupAux [] l

/-- pandas `mean` with `skipna=True` (the default): the arithmetic mean of
the non-NaN entries, NaN when every entry is NaN. -/
def nanMean (xs : List (Option ℚ)) : Option ℚ :=
  if (xs.filterMap id).length = 0 then none
  else some ((xs.filterMap id).sum / ((xs.filterMap id).length : ℚ))

/-- The square of pandas `std` with `skipna=True` and `ddof=1` (the
defaults): the sample variance of the non-NaN entries, NaN when fewer than
two remain. -/
def nanVarSq (xs : List (Option ℚ)) : Option ℚ :=
  if (xs.filterMap id).length < 2 then none
  else
    some ((((xs.filterMap id).map
        (fun x => (x - (xs.filterMap id).sum / ((xs.filterMap id).length : ℚ)) *
          (x - (xs.filterMap id).sum / ((xs.filterMap id).length : ℚ)))).sum) /
      (((xs.filterMap id).length : ℚ) - 1))

/-- The `cq` float values of the rows of group `k` (`groupby` collects the
rows whose key equals `k`). -/
def groupCqs (rows : List RawRow) (k : Cell × Cell) : List (Option ℚ) :=
  (rows.filter (fun r => decide (rowKey r = k))).map (fun r => cellFloat r.cq)

/-- The lookup step of a pandas left merge against a right table with
unique keys (both merges of the source join against `groupby` outputs,
which have one row per key): the value of the matching right row, or the
default (NaN columns) when no right row matches. -/
def lookupOr {κ ν : Type} [DecidableEq κ] (dflt : ν) : List (κ × ν) → κ → ν
  | [], _ => dflt
  | e :: tbl, k => if e.1 = k then e.2 else lookupOr dflt tbl k

/-- One row of the output of `calculate_avg_cqs`: columns `sample`,
`target`, `mean`, `std`.  The `std` cell is the square root of the rational
sample variance, hence irrational in general; `stdSq` stores its square
(`std` is NaN exactly when `stdSq = none`). -/
structure AggRow : Type where
  sample : Cell
  target : Cell
  mean : Option ℚ
  stdSq : Option ℚ
deriving DecidableEq

/-- The group-and-rejoin body of `calculate_avg_cqs` (source lines 30-47)
on the aligned rows:

* `groupby(["sample", "target"]).agg({"cq": ["mean", "std"]})` — group keys
  containing NaN are dropped (`dropna=True` is the pandas default); each
  group gets the skipna mean and sample standard deviation of its `cq`
  values.  (pandas sorts the group keys; the grouped table's row order is
  unobservable, because the left merge below emits rows in the order of its
  left operand.)
* `cqs[["sample", "target"]].drop_duplicates()` — the distinct pairs in
  first-occurrence order, and then `.merge(right=avg_cqs, how="left",
  on=["sample", "target"])` — a left merge: each pair keeps its group's
  statistics, or NaN when no group has that key. -/
def aggregateRows (rows : List RawRow) : Except PyErr (List AggRow) :=
  if rows.any (fun r => r.cq.isStr) then Except.error PyErr.typeError
  else
    Except.ok ((dropDuplicates (rows.map rowKey)).map (fun p =>
      let st := lookupOr (none, none)
        ((dropDuplicates ((rows.filter (fun r =>
            !(decide (r.sample = Cell.nan) || decide (r.target = Cell.nan)))).map rowKey)).map
          (fun k => (k, (nanMean (groupCqs rows k), nanVarSq (groupCqs rows k))))) p
      ⟨p.1, p.2, st.1, st.2⟩))

/-- `calculate_avg_cqs` (source lines 4-49).  Raises `TypeError` unless the
argument is a `pd.DataFrame`; then `groupby` / `agg` raise `KeyError` when a
required column is missing; then groups and rejoins. -/
def calculate_avg_cqs (cqs : PyArg) : Except PyErr (List AggRow) :=
  match cqs with
  | PyArg.frame df =>
      match df.col "sample", df.col "target", df.col "cq" with
      | some ss, some ts, some qs => aggregateRows (zipRows ss ts qs)
      | _, _, _ => Except.error PyErr.keyError
  | _ => Except.error PyErr.typeError

/-- `mean - mean_ic` on float cells: NaN as soon as one operand is NaN. -/
def optSub : Option ℚ → Option ℚ → Option ℚ
  | some a, some b => some (a - b)
  | _, _ => none

/-- One row of the output of `calculate_d_cqs`: an `AggRow` extended with
the columns `mean_ic` and `d_cq`. -/
structure DRow : Type where
  sample : Cell
  target : Cell
  mean : Option ℚ
  stdSq : Option ℚ
  mean_ic : Option ℚ
  d_cq : Option ℚ
deriving DecidableEq

/-- The per-sample internal-control table of `calculate_d_cqs` (source
lines 95-104): filter the aggregated rows to the internal-control targets,
group by sample (NaN keys dropped, as pandas does), and take the skipna
mean of the already-aggregated `mean` column, renamed `mean_ic`. -/
def icTable (avg : List AggRow) (icl : List Cell) : List (Cell × Option ℚ) :=
  (dropDuplicates (((avg.filter (fun r => decide (r.target ∈ icl))).filter
      (fun r => !(decide (r.sample = Cell.nan)))).map (fun r => r.sample))).map
    (fun s => (s, nanMean ((((avg.filter (fun r => decide (r.target ∈ icl))).filter
      (fun r => decide (r.sample = s)))).map (fun r => r.mean))))

/-- `calculate_d_cqs` (source lines 52-119).  After the two `isinstance`
checks it calls `calculate_avg_cqs`, builds the per-sample mean of the
internal-control means, left-merges it on `sample`, and sets
`d_cq = np.where(~isin(internal_controls), mean - mean_ic, NaN)`. -/
def calculate_d_cqs (cqs internal_controls : PyArg) : Except PyErr (List DRow) :=
  match cqs with
  | PyArg.frame df =>
      match internal_controls with
      | PyArg.pylist icl =>
          match calculate_avg_cqs (PyArg.frame df) with
          | Except.error e => Except.error e
          | Except.ok avg =>
              Except.ok (avg.map (fun r =>
                let mic := lookupOr none (icTable avg icl) r.sample
                ⟨r.sample, r.target, r.mean, r.stdSq, mic,
                  if r.target ∈ icl then none else optSub r.mean mic⟩))
      | _ => Except.error PyErr.typeError
  | _ => Except.error PyErr.typeError

/-- `calculate_dd_cqs` (source lines 121-163).  After the three
`isinstance` checks, line 141 evaluates `q.calculate_d_cqs(cqs,
internal_controls)`; the name `q` is not defined anywhere in the module, so
Python raises `NameError` there, before any computation.  The remainder of
the body (lines 143-163) is unreachable and never produces a result, so the
success type of this function is never inhabited by a call. -/
def calculate_dd_cqs (cqs internal_controls calibrator : PyArg) :
    Except PyErr (List DRow) :=
  match cqs with
  | PyArg.frame _ =>
      match internal_controls with
      | PyArg.pylist _ =>
          match calibrator with
          | PyArg.pystr _ => Except.error PyErr.nameError
          | _ => Except.error PyErr.typeError
      | _ => Except.error PyErr.typeError
  | _ => Except.error PyErr.typeError

/-- The aligned rows of `toFrame rs`. -/
def rawRows (rs : List Reading) : List RawRow :=
  rs.map (fun r => ⟨Cell.str r.sample, Cell.str r.target, cqCell r.cq⟩)

/-- The `(sample, target)` key cells of the raw readings, in input order. -/
def inputKeys (rs : List Reading) : List (Cell × Cell) :=
  rs.map (fun r => (Cell.str r.sample, Cell.str r.target))

/-- The `cq` column of the replicates of the `(s, t)` group, in input
order. -/
def replicateCqs (rs : List Reading) (s t : String) : List (Option ℚ) :=
  (rs.filter (fun r => decide (r.sample = s) && decide (r.target = t))).map
    (fun r => r.cq)

theorem cqCell_not_isStr (x : Option ℚ) : (cqCell x).isStr = false := by
  cases x <;> rfl

theorem cellFloat_cqCell (x : Option ℚ) : cellFloat (cqCell x) = x := by
  cases x <;> rfl

theorem zipRows_map (rs : List Reading) :
    zipRows (rs.map (fun r => Cell.str r.sample))
      (rs.map (fun r => Cell.str r.target))
      (rs.map (fun r => cqCell r.cq)) = rawRows rs := by
  induction rs with
  | nil => rfl
  | cons r rs ih => simp [zipRows, rawRows] at ih ⊢; exact ih

theorem avg_cqs_toFrame (rs : List Reading) :
    calculate_avg_cqs (PyArg.frame (toFrame rs)) = aggregateRows (rawRows rs) := by
  have h := zipRows_map rs
  simp [calculate_avg_cqs, toFrame, RawFrame.col]
  rw [h]

theorem mem_dropDupAux {α : Type} [DecidableEq α] (seen l : List α) (a : α) :
    a ∈ dropDupAux seen l ↔ a ∈ l ∧ a ∉ seen := by
  induction l generalizing seen with
  | nil => simp [dropDupAux]
  | cons b l ih =>
    by_cases hb : b ∈ seen
    · rw [dropDupAux, if_pos hb, ih]
      constructor
      · intro h
        exact ⟨List.mem_cons_of_mem b h.1, h.2⟩
      · intro h
        rcases List.mem_cons.mp h.1 with h1 | h1
        · subst h1
          exact absurd hb h.2
        · exact ⟨h1, h.2⟩
    · rw [dropDupAux, if_neg hb]
      by_cases hab : a = b
      · subst hab
        simp [hb]
      · rw [List.mem_cons]
        simp only [hab, false_or]
        rw [ih]
        simp [List.mem_cons, hab]

theorem mem_dropDuplicates {α : Type} [DecidableEq α] (l : List α) (a : α) :
    a ∈ dropDuplicates l ↔ a ∈ l := by
  rw [dropDuplicates, mem_dropDupAux]
  simp

theorem nodup_dropDupAux {α : Type} [DecidableEq α] (seen l : List α) :
    (dropDupAux seen l).Nodup := by
  induction l generalizing seen with
  | nil => exact List.nodup_nil
  | cons b l ih =>
    by_cases hb : b ∈ seen
    · rw [dropDupAux, if_pos hb]
      exact ih seen
    · rw [dropDupAux, if_neg hb]
      refine List.nodup_cons.mpr ⟨?_, ih (b :: seen)⟩
      intro hmem
      exact ((mem_dropDupAux (b :: seen) l b).mp hmem).2 (List.mem_cons_self b seen)

theorem nodup_dropDuplicates {α : Type} [DecidableEq α] (l : List α) :
    (dropDuplicates l).Nodup :=
  nodup_dropDupAux [] l

theorem lookupOr_map_mem {κ ν : Type} [DecidableEq κ] (d : ν) (f : κ → ν)
    (keys : List κ) (p : κ) (hp : p ∈ keys) :
    lookupOr d (keys.map (fun k => (k, f k))) p = f p := by
  induction keys with
  | nil => cases hp
  | cons k ks ih =>
    rw [List.map_cons, lookupOr]
    by_cases hk : k = p
    · subst hk
      simp
    · rw [if_neg hk]
      rcases List.mem_cons.mp hp with h | h
      · exact absurd h.symm hk
      · exact ih h

theorem lookupOr_map_not_mem {κ ν : Type} [DecidableEq κ] (d : ν) (f : κ → ν)
    (keys : List κ) (p : κ) (hp : p ∉ keys) :
    lookupOr d (keys.map (fun k => (k, f k))) p = d := by
  induction keys with
  | nil => rfl
  | cons k ks ih =>
    rw [List.map_cons, lookupOr]
    rw [if_neg (fun h : k = p => hp (h ▸ List.mem_cons_self k ks))]
    exact ih (fun h => hp (List.mem_cons_of_mem k h))

/-- `aggregateRows` on rows with no string `cq` cell and no NaN key:
one output row per distinct key in first-occurrence order, carrying the
skipna mean and (squared) sample standard deviation of the key's group. -/
theorem aggregateRows_noNaN (rows : List RawRow)
    (hstr : rows.any (fun r => r.cq.isStr) = false)
    (hkey : ∀ r ∈ rows, r.sample ≠ Cell.nan ∧ r.target ≠ Cell.nan) :
    aggregateRows rows = Except.ok ((dropDuplicates (rows.map rowKey)).map
      (fun p => ⟨p.1, p.2, nanMean (groupCqs rows p), nanVarSq (groupCqs rows p)⟩)) := by
  have hfil : rows.filter (fun r =>
      !(decide (r.sample = Cell.nan) || decide (r.target = Cell.nan))) = rows := by
    apply List.filter_eq_self.mpr
    intro r hr
    simp [(hkey r hr).1, (hkey r hr).2]
  rw [aggregateRows, if_neg (by simp [hstr]), hfil]
  congr 1
  apply List.map_congr_left
  intro p hp
  rw [lookupOr_map_mem _ _ _ _ hp]

/-- The stage-1 output on the frame of a list of well-formed readings. -/
def avgRows (rs : List Reading) : List AggRow :=
  (dropDuplicates (inputKeys rs)).map
    (fun p => ⟨p.1, p.2, nanMean (groupCqs (rawRows rs) p), nanVarSq (groupCqs (rawRows rs) p)⟩)

theorem rawRows_map_rowKey (rs : List Reading) :
    (rawRows rs).map rowKey = inputKeys rs := by
  rw [rawRows, inputKeys, List.map_map]
  rfl

/-- `calculate_avg_cqs` on a well-formed input frame. -/
theorem avg_spec (rs : List Reading) :
    calculate_avg_cqs (PyArg.frame (toFrame rs)) = Except.ok (avgRows rs) := by
  rw [avg_cqs_toFrame]
  rw [aggregateRows_noNaN (rawRows rs)
    (by simp [rawRows, List.any_map, Function.comp_def, cqCell_not_isStr])
    (by
      intro r hr
      rcases List.mem_map.mp hr with ⟨x, _, hx⟩
      subst hx
      exact ⟨Cell.noConfusion, Cell.noConfusion⟩)]
  rw [avgRows, rawRows_map_rowKey]

/-- The index of the first occurrence of `a` in `l` (`l.length` when
absent). -/
def firstIdx {α : Type} [DecidableEq α] (l : List α) (a : α) : Nat :=
  l.findIdx (fun b => decide (b = a))

theorem firstIdx_cons_self {α : Type} [DecidableEq α] (a : α) (l : List α) :
    firstIdx (a :: l) a = 0 := by
  simp [firstIdx, List.findIdx_cons]

theorem firstIdx_cons_ne {α : Type} [DecidableEq α] (a b : α) (l : List α)
    (h : b ≠ a) : firstIdx (b :: l) a = firstIdx l a + 1 := by
  simp [firstIdx, List.findIdx_cons, h]

theorem pairwise_firstIdx_dropDupAux {α : Type} [DecidableEq α] (seen l : List α) :
    (dropDupAux seen l).Pairwise (fun a b => firstIdx l a < firstIdx l b) := by
  induction l generalizing seen with
  | nil => exact List.Pairwise.nil
  | cons b l ih =>
    by_cases hb : b ∈ seen
    · rw [dropDupAux, if_pos hb]
      refine ((ih seen).imp_of_mem ?_)
      intro x y hx hy hlt
      have hxb : b ≠ x := by
        intro h
        exact ((mem_dropDupAux seen l x).mp hx).2 (h ▸ hb)
      have hyb : b ≠ y := by
        intro h
        exact ((mem_dropDupAux seen l y).mp hy).2 (h ▸ hb)
      rw [firstIdx_cons_ne x b l hxb, firstIdx_cons_ne y b l hyb]
      exact Nat.succ_lt_succ hlt
    · rw [dropDupAux, if_neg hb]
      refine List.pairwise_cons.mpr ⟨?_, ?_⟩
      · intro y hy
        have hyb : b ≠ y := by
          intro h
          exact ((mem_dropDupAux (b :: seen) l y).mp hy).2 (h ▸ List.mem_cons_self b seen)
        rw [firstIdx_cons_self b l, firstIdx_cons_ne y b l hyb]
        exact Nat.succ_pos _
      · refine ((ih (b :: seen)).imp_of_mem ?_)
        intro x y hx hy hlt
        have hxb : b ≠ x := by
          intro h
          exact ((mem_dropDupAux (b :: seen) l x).mp hx).2 (h ▸ List.mem_cons_self b seen)
        have hyb : b ≠ y := by
          intro h
          exact ((mem_dropDupAux (b :: seen) l y).mp hy).2 (h ▸ List.mem_cons_self b seen)
        rw [firstIdx_cons_ne x b l hxb, firstIdx_cons_ne y b l hyb]
        exact Nat.succ_lt_succ hlt

theorem pairwise_firstIdx_dropDuplicates {α : Type} [DecidableEq α] (l : List α) :
    (dropDuplicates l).Pairwise (fun a b => firstIdx l a < firstIdx l b) :=
  pairwise_firstIdx_dropDupAux [] l

theorem groupCqs_rawRows (rs : List Reading) (s t : String) :
    groupCqs (rawRows rs) (Cell.str s, Cell.str t) = replicateCqs rs s t := by
  rw [groupCqs, rawRows, List.filter_map, List.map_map, replicateCqs]
  have hp : ((fun r => decide (rowKey r = (Cell.str s, Cell.str t))) ∘
      (fun r : Reading => RawRow.mk (Cell.str r.sample) (Cell.str r.target) (cqCell r.cq))) =
      (fun r : Reading => decide (r.sample = s) && decide (r.target = t)) := by
    funext r
    simp [rowKey, Function.comp, Prod.ext_iff]
  rw [hp]
  congr 1
  funext r
  exact cellFloat_cqCell r.cq

/-- Each stage-1 output row belongs to a `(sample, target)` pair of the
input and carries the skipna statistics of that pair's replicates. -/
theorem mem_avgRows (rs : List Reading) (a : AggRow) (ha : a ∈ avgRows rs) :
    ∃ s t : String, a.sample = Cell.str s ∧ a.target = Cell.str t ∧
      (Cell.str s, Cell.str t) ∈ inputKeys rs ∧
      a.mean = nanMean (replicateCqs rs s t) ∧
      a.stdSq = nanVarSq (replicateCqs rs s t) := by
  rcases List.mem_map.mp ha with ⟨p, hp, hpa⟩
  have hpin : p ∈ inputKeys rs := (mem_dropDuplicates _ _).mp hp
  rcases List.mem_map.mp hpin with ⟨r, hr, hrp⟩
  refine ⟨r.sample, r.target, ?_, ?_, ?_, ?_, ?_⟩
  · rw [← hpa, ← hrp]
  · rw [← hpa, ← hrp]
  · rw [hrp]
    exact hpin
  · rw [← hpa]
    show nanMean (groupCqs (rawRows rs) p) = _
    rw [← hrp, groupCqs_rawRows]
  · rw [← hpa]
    show nanVarSq (groupCqs (rawRows rs) p) = _
    rw [← hrp, groupCqs_rawRows]

/-- Each `(sample, target)` pair of the input has its row in the stage-1
output. -/
theorem avgRows_row_for_key (rs : List Reading) (s t : String)
    (h : (Cell.str s, Cell.str t) ∈ inputKeys rs) :
    AggRow.mk (Cell.str s) (Cell.str t) (nanMean (replicateCqs rs s t))
      (nanVarSq (replicateCqs rs s t)) ∈ avgRows rs := by
  refine List.mem_map.mpr ⟨(Cell.str s, Cell.str t), (mem_dropDuplicates _ _).mpr h, ?_⟩
  rw [groupCqs_rawRows]

/-- C1: for every well-formed raw input table, the output of
`calculate_avg_cqs` has exactly one row per distinct `(sample, target)`
pair present in the input — no pair gained (every output pair is an input
pair), none lost (every input pair is an output pair), none duplicated
(the output pair list is duplicate-free) — and the rows appear in the
first-occurrence order of each pair in the raw input (pairs are listed
exactly as `drop_duplicates` leaves them, and their first-occurrence
indices in the input are strictly increasing along the output). -/
theorem avgRows_map_pair (rs : List Reading) :
    (avgRows rs).map (fun a => (a.sample, a.target)) = dropDuplicates (inputKeys rs) := by
  rw [avgRows, List.map_map]
  have hcomp : ((fun a : AggRow => (a.sample, a.target)) ∘
      (fun p : Cell × Cell => AggRow.mk p.1 p.2 (nanMean (groupCqs (rawRows rs) p))
        (nanVarSq (groupCqs (rawRows rs) p)))) = id := by
    funext p
    rfl
  rw [hcomp, List.map_id]

theorem claim_C1_stage1_rows (rs : List Reading) :
    ∃ out, calculate_avg_cqs (PyArg.frame (toFrame rs)) = Except.ok out ∧
      out.map (fun a => (a.sample, a.target)) = dropDuplicates (inputKeys rs) ∧
      (out.map (fun a => (a.sample, a.target))).Nodup ∧
      (∀ p, p ∈ out.map (fun a => (a.sample, a.target)) ↔ p ∈ inputKeys rs) ∧
      (out.map (fun a => (a.sample, a.target))).Pairwise
        (fun p q => firstIdx (inputKeys rs) p < firstIdx (inputKeys rs) q) := by
  have hmap := avgRows_map_pair rs
  refine ⟨avgRows rs, avg_spec rs, hmap, ?_, ?_, ?_⟩
  · rw [hmap]
    exact nodup_dropDuplicates _
  · intro p
    rw [hmap]
    exact mem_dropDuplicates (inputKeys rs) p
  · rw [hmap]
    exact pairwise_firstIdx_dropDuplicates (inputKeys rs)

/-- The stage-2 output on the frame of a list of well-formed readings. -/
def dRows (rs : List Reading) (icl : List Cell) : List DRow :=
  (avgRows rs).map (fun r =>
    ⟨r.sample, r.target, r.mean, r.stdSq,
      lookupOr none (icTable (avgRows rs) icl) r.sample,
      if r.target ∈ icl then none
      else optSub r.mean (lookupOr none (icTable (avgRows rs) icl) r.sample)⟩)

/-- `calculate_d_cqs` on a well-formed input frame and a genuine list. -/
theorem d_cqs_spec (rs : List Reading) (icl : List Cell) :
    calculate_d_cqs (PyArg.frame (toFrame rs)) (PyArg.pylist icl) =
      Except.ok (dRows rs icl) := by
  simp only [calculate_d_cqs, avg_spec, dRows]

/-- The `mean_ic` looked up for a non-NaN sample cell is the skipna mean
of the `mean` column of the internal-control rows of that sample. -/
theorem lookupOr_icTable (avg : List AggRow) (icl : List Cell) (c : Cell)
    (hc : c ≠ Cell.nan) :
    lookupOr none (icTable avg icl) c =
      nanMean (((avg.filter (fun r => decide (r.target ∈ icl))).filter
        (fun r => decide (r.sample = c))).map (fun r => r.mean)) := by
  rw [icTable]
  by_cases hmem : c ∈ dropDuplicates
      (((avg.filter (fun r => decide (r.target ∈ icl))).filter
        (fun r => !(decide (r.sample = Cell.nan)))).map (fun r => r.sample))
  · rw [lookupOr_map_mem _ _ _ _ hmem]
  · rw [lookupOr_map_not_mem _ _ _ _ hmem]
    have hnil : ((avg.filter (fun r => decide (r.target ∈ icl))).filter
        (fun r => decide (r.sample = c))) = [] := by
      rw [List.filter_eq_nil_iff]
      intro r hr hsam
      apply hmem
      rw [mem_dropDuplicates]
      refine List.mem_map.mpr ⟨r, ?_, ?_⟩
      · refine List.mem_filter.mpr ⟨hr, ?_⟩
        have : r.sample = c := of_decide_eq_true hsam
        simp [this, hc]
      · exact of_decide_eq_true hsam
    rw [hnil]
    rfl

theorem mem_dRows (rs : List Reading) (icl : List Cell) (r : DRow)
    (hr : r ∈ dRows rs icl) :
    ∃ a ∈ avgRows rs, r = DRow.mk a.sample a.target a.mean a.stdSq
      (lookupOr none (icTable (avgRows rs) icl) a.sample)
      (if a.target ∈ icl then none
       else optSub a.mean (lookupOr none (icTable (avgRows rs) icl) a.sample)) := by
  rcases List.mem_map.mp hr with ⟨a, ha, hra⟩
  exact ⟨a, ha, hra.symm⟩

theorem avgRows_sample_ne_nan (rs : List Reading) (a : AggRow)
    (ha : a ∈ avgRows rs) : a.sample ≠ Cell.nan := by
  rcases mem_avgRows rs a ha with ⟨s, t, hs, _, _, _, _⟩
  rw [hs]
  exact fun h => Cell.noConfusion h

theorem optSub_none_right (x : Option ℚ) : optSub x none = none := by
  cases x <;> rfl

theorem dRows_map_pair (rs : List Reading) (icl : List Cell) :
    (dRows rs icl).map (fun r => (r.sample, r.target)) = dropDuplicates (inputKeys rs) := by
  rw [dRows, List.map_map]
  have hcomp : ∀ a : AggRow, ((fun r : DRow => (r.sample, r.target)) ∘
      (fun r : AggRow => DRow.mk r.sample r.target r.mean r.stdSq
        (lookupOr none (icTable (avgRows rs) icl) r.sample)
        (if r.target ∈ icl then none
         else optSub r.mean (lookupOr none (icTable (avgRows rs) icl) r.sample)))) a =
      (fun a : AggRow => (a.sample, a.target)) a := by
    intro a
    rfl
  rw [List.map_congr_left (fun a _ => hcomp a)]
  exact avgRows_map_pair rs

/-- C5: in the output of `calculate_d_cqs`, `mean_ic` is identical across
all rows sharing a sample, and on every row it equals the (skipna) mean of
the already-aggregated per-target `mean` values of the internal-control
targets of that row's sample in the stage-1 output — a mean of means, each
control target weighted once whatever its replicate count. -/
theorem claim_C5_mean_ic (rs : List Reading) (icl : List Cell) :
    ∃ avgOut out,
      calculate_avg_cqs (PyArg.frame (toFrame rs)) = Except.ok avgOut ∧
      calculate_d_cqs (PyArg.frame (toFrame rs)) (PyArg.pylist icl) = Except.ok out ∧
      (∀ r1 ∈ out, ∀ r2 ∈ out, r1.sample = r2.sample → r1.mean_ic = r2.mean_ic) ∧
      (∀ r ∈ out, r.mean_ic = nanMean
        (((avgOut.filter (fun a => decide (a.target ∈ icl))).filter
          (fun a => decide (a.sample = r.sample))).map (fun a => a.mean))) := by
  have hmic : ∀ r ∈ dRows rs icl,
      r.mean_ic = lookupOr none (icTable (avgRows rs) icl) r.sample := by
    intro r hr
    rcases mem_dRows rs icl r hr with ⟨a, _, hra⟩
    rw [hra]
  refine ⟨avgRows rs, dRows rs icl, avg_spec rs, d_cqs_spec rs icl, ?_, ?_⟩
  · intro r1 h1 r2 h2 hs
    rw [hmic r1 h1, hmic r2 h2, hs]
  · intro r hr
    rcases mem_dRows rs icl r hr with ⟨a, ha, hra⟩
    have hnan : r.sample ≠ Cell.nan := by
      rw [hra]
      exact avgRows_sample_ne_nan rs a ha
    rw [hmic r hr, lookupOr_icTable (avgRows rs) icl r.sample hnan]

/-- C10: `calculate_d_cqs` accepts an empty `internal_controls` list
without raising: it returns a complete table (one row per distinct
`(sample, target)` pair, in first-occurrence order) in which `mean_ic` and
`d_cq` are NaN on every row. -/
theorem claim_C10_empty_controls (rs : List Reading) :
    ∃ out, calculate_d_cqs (PyArg.frame (toFrame rs)) (PyArg.pylist []) = Except.ok out ∧
      out.map (fun r => (r.sample, r.target)) = dropDuplicates (inputKeys rs) ∧
      ∀ r ∈ out, r.mean_ic = none ∧ r.d_cq = none := by
  have hic : icTable (avgRows rs) [] = [] := by
    simp [icTable, dropDuplicates, dropDupAux]
  refine ⟨dRows rs [], d_cqs_spec rs [], dRows_map_pair rs [], ?_⟩
  intro r hr
  rcases mem_dRows rs [] r hr with ⟨a, _, hra⟩
  rw [hra]
  simp [hic, lookupOr, optSub_none_right]

/-- C2 is refuted as stated: with readings `(S1, GeneX, NaN)` and
`(S1, Actin, 20)` and internal controls `[Actin]`, the `GeneX` row is a
non-control row with `mean_ic` defined (20), yet its `d_cq` is NaN,
because its own `mean` is NaN (all its replicates failed). -/
theorem claim_C2_counterexample :
    ∃ out, calculate_d_cqs (PyArg.frame (toFrame
        [⟨"S1", "GeneX", none⟩, ⟨"S1", "Actin", some 20⟩]))
      (PyArg.pylist [Cell.str "Actin"]) = Except.ok out ∧
    ∃ r ∈ out, r.target ∉ [Cell.str "Actin"] ∧ r.mean_ic ≠ none ∧ r.d_cq = none := by
  have hout : calculate_d_cqs (PyArg.frame (toFrame
      [⟨"S1", "GeneX", none⟩, ⟨"S1", "Actin", some 20⟩]))
      (PyArg.pylist [Cell.str "Actin"]) =
      Except.ok
        [DRow.mk (Cell.str "S1") (Cell.str "GeneX") none none (some 20) none,
         DRow.mk (Cell.str "S1") (Cell.str "Actin") (some 20) none (some 20) none] := by
    rw [d_cqs_spec]
    simp [dRows, avgRows, icTable, inputKeys, rawRows, dropDuplicates, dropDupAux,
      groupCqs, rowKey, nanMean, nanVarSq, cellFloat, cqCell, lookupOr, optSub]
  refine ⟨_, hout, DRow.mk (Cell.str "S1") (Cell.str "GeneX") none none (some 20) none,
    List.mem_cons_self _ _, ?_, ?_, rfl⟩
  · simp
  · exact fun h => Option.noConfusion h

/-- C2 (amended): in the output of `calculate_d_cqs`, `d_cq` is NaN on
every internal-control row; on every non-control row `d_cq` is
`mean - mean_ic` under NaN-propagating subtraction; and `d_cq` is non-NaN
on a non-control row whenever BOTH `mean` and `mean_ic` are defined (the
original claim asked this of `mean_ic` alone, but a NaN `mean` also makes
`d_cq` NaN). -/
theorem claim_C2_d_cq_amended (rs : List Reading) (icl : List Cell) :
    ∃ out, calculate_d_cqs (PyArg.frame (toFrame rs)) (PyArg.pylist icl) = Except.ok out ∧
      ∀ r ∈ out,
        (r.target ∈ icl → r.d_cq = none) ∧
        (r.target ∉ icl → r.d_cq = optSub r.mean r.mean_ic) ∧
        (r.target ∉ icl → ∀ m mi : ℚ, r.mean = some m → r.mean_ic = some mi →
          r.d_cq = some (m - mi)) := by
  refine ⟨dRows rs icl, d_cqs_spec rs icl, ?_⟩
  intro r hr
  rcases mem_dRows rs icl r hr with ⟨a, _, hra⟩
  subst hra
  by_cases hmem : a.target ∈ icl
  · refine ⟨fun _ => ?_, fun hn => absurd hmem hn, fun hn => absurd hmem hn⟩
    show (if a.target ∈ icl then none else _) = none
    rw [if_pos hmem]
  · refine ⟨fun hc => absurd hc hmem, fun _ => ?_, fun _ m mi hm hmi => ?_⟩
    · show (if a.target ∈ icl then none else _) = _
      rw [if_neg hmem]
    · show (if a.target ∈ icl then none else _) = _
      rw [if_neg hmem]
      have hm' : a.mean = some m := hm
      have hmi' : lookupOr none (icTable (avgRows rs) icl) a.sample = some mi := hmi
      rw [hm', hmi']
      rfl

/-- C4 is refuted as stated: the group `(S1, T1)` contains a NaN `cq`
replicate, yet its output `mean` is 21 (the mean of the two non-NaN
replicates 20 and 22) and its `std` is √2 (`stdSq = 2`), not NaN: pandas
`mean`/`std` skip NaN by default, so a failed replicate does not poison
the aggregate. -/
theorem claim_C4_counterexample :
    calculate_avg_cqs (PyArg.frame (toFrame
        [⟨"S1", "T1", some 20⟩, ⟨"S1", "T1", some 22⟩, ⟨"S1", "T1", none⟩])) =
      Except.ok [AggRow.mk (Cell.str "S1") (Cell.str "T1") (some 21) (some 2)] ∧
    some (21 : ℚ) ≠ none ∧ some (2 : ℚ) ≠ none := by
  refine ⟨?_, fun h => Option.noConfusion h, fun h => Option.noConfusion h⟩
  rw [avg_spec]
  simp [avgRows, inputKeys, rawRows, dropDuplicates, dropDupAux, groupCqs,
    rowKey, nanMean, nanVarSq, cellFloat, cqCell]
  norm_num

theorem key_mem_of_replicate (rs : List Reading) (s t : String)
    (h : replicateCqs rs s t ≠ []) :
    (Cell.str s, Cell.str t) ∈ inputKeys rs := by
  rw [replicateCqs] at h
  have hfil : rs.filter (fun r => decide (r.sample = s) && decide (r.target = t)) ≠ [] := by
    intro hc
    rw [hc] at h
    exact h rfl
  rcases List.exists_mem_of_ne_nil _ hfil with ⟨r, hr⟩
  have hmem := List.mem_filter.mp hr
  rcases (Bool.and_eq_true _ _).mp hmem.2 with ⟨h1, h2⟩
  refine List.mem_map.mpr ⟨r, hmem.1, ?_⟩
  rw [of_decide_eq_true h1, of_decide_eq_true h2]

/-- C4 (amended): NaN `cq` replicates ARE filtered out (pandas skips NaN
by default): each group's `mean`/`std` are computed over its non-NaN
replicates only; `mean` is NaN exactly when every replicate of the group is
NaN, and `std` is NaN exactly when fewer than two non-NaN replicates
remain. -/
theorem claim_C4_nan_skipped (rs : List Reading) (s t : String)
    (h : (Cell.str s, Cell.str t) ∈ inputKeys rs) :
    ∃ out, calculate_avg_cqs (PyArg.frame (toFrame rs)) = Except.ok out ∧
      ∃ a ∈ out, a.sample = Cell.str s ∧ a.target = Cell.str t ∧
        ((replicateCqs rs s t).filterMap id = [] → a.mean = none ∧ a.stdSq = none) ∧
        (∀ vs : List ℚ, (replicateCqs rs s t).filterMap id = vs → vs ≠ [] →
          a.mean = some (vs.sum / (vs.length : ℚ))) ∧
        (∀ vs : List ℚ, (replicateCqs rs s t).filterMap id = vs → vs.length < 2 →
          a.stdSq = none) ∧
        (∀ vs : List ℚ, (replicateCqs rs s t).filterMap id = vs → 2 ≤ vs.length →
          a.stdSq = some ((vs.map (fun x => (x - vs.sum / (vs.length : ℚ)) *
            (x - vs.sum / (vs.length : ℚ)))).sum / ((vs.length : ℚ) - 1))) := by
  refine ⟨avgRows rs, avg_spec rs,
    AggRow.mk (Cell.str s) (Cell.str t) (nanMean (replicateCqs rs s t))
      (nanVarSq (replicateCqs rs s t)),
    avgRows_row_for_key rs s t h, rfl, rfl, ?_, ?_, ?_, ?_⟩
  · intro hvs
    constructor
    · show nanMean (replicateCqs rs s t) = none
      rw [nanMean, hvs]
      rfl
    · show nanVarSq (replicateCqs rs s t) = none
      rw [nanVarSq, hvs]
      rfl
  · intro vs hvs hne
    show nanMean (replicateCqs rs s t) = _
    rw [nanMean, hvs]
    rw [if_neg (fun hc => hne (List.length_eq_zero.mp hc))]
  · intro vs hvs hlt
    show nanVarSq (replicateCqs rs s t) = none
    rw [nanVarSq, hvs]
    rw [if_pos hlt]
  · intro vs hvs hge
    show nanVarSq (replicateCqs rs s t) = _
    rw [nanVarSq, hvs]
    rw [if_neg (Nat.not_lt.mpr hge)]

/-- C8: for a `(sample, target)` group whose replicates are all non-NaN
(`replicateCqs rs s t = qs.map some` with `qs` the replicate values), the
output row carries `mean = (Σ qs) / n` (the arithmetic mean) and the
`std` cell is the sample standard deviation with `n - 1` denominator:
`stdSq = (Σ (x - mean)²) / (n - 1)` when `n ≥ 2` (so e.g. replicates 20
and 22 give mean 21 and std √2, i.e. `stdSq = 2`), and `std` is NaN when
the group has fewer than 2 replicates. -/
theorem claim_C8_group_stats (rs : List Reading) (s t : String) (qs : List ℚ)
    (hq : replicateCqs rs s t = qs.map some) (hne : qs ≠ []) :
    ∃ out, calculate_avg_cqs (PyArg.frame (toFrame rs)) = Except.ok out ∧
      ∃ a ∈ out, a.sample = Cell.str s ∧ a.target = Cell.str t ∧
        a.mean = some (qs.sum / (qs.length : ℚ)) ∧
        (qs.length < 2 → a.stdSq = none) ∧
        (2 ≤ qs.length → a.stdSq = some ((qs.map (fun x =>
          (x - qs.sum / (qs.length : ℚ)) * (x - qs.sum / (qs.length : ℚ)))).sum /
          ((qs.length : ℚ) - 1))) := by
  have hkey : (Cell.str s, Cell.str t) ∈ inputKeys rs := by
    apply key_mem_of_replicate
    rw [hq]
    intro hc
    exact hne (List.map_eq_nil_iff.mp hc)
  have hfm : (replicateCqs rs s t).filterMap id = qs := by
    rw [hq]
    simp
  refine ⟨avgRows rs, avg_spec rs,
    AggRow.mk (Cell.str s) (Cell.str t) (nanMean (replicateCqs rs s t))
      (nanVarSq (replicateCqs rs s t)),
    avgRows_row_for_key rs s t hkey, rfl, rfl, ?_, ?_, ?_⟩
  · show nanMean (replicateCqs rs s t) = _
    rw [nanMean, hfm]
    rw [if_neg (fun hc => hne (List.length_eq_zero.mp hc))]
  · intro hlt
    show nanVarSq (replicateCqs rs s t) = none
    rw [nanVarSq, hfm]
    rw [if_pos hlt]
  · intro hge
    show nanVarSq (replicateCqs rs s t) = _
    rw [nanVarSq, hfm]
    rw [if_neg (Nat.not_lt.mpr hge)]

/-- C6 is refuted as stated: a `pd.DataFrame` missing required columns is
NOT caught by the upfront validation.  `calculate_avg_cqs` on a frame with
only `sample` and `target` columns passes the `isinstance` check, starts
the computation, and fails inside `groupby`/`agg` with `KeyError` — not
with the `TypeError` that the synchronous validation raises. -/
theorem claim_C6_counterexample :
    calculate_avg_cqs (PyArg.frame (RawFrame.mk [("sample", []), ("target", [])])) =
      Except.error PyErr.keyError ∧ PyErr.keyError ≠ PyErr.typeError := by
  exact ⟨rfl, fun h => PyErr.noConfusion h⟩

/-- C6 (amended): arguments of the wrong container type — `cqs` not a
DataFrame, `internal_controls` not a list, `calibrator` not a str — make
each function raise `TypeError` synchronously, before any computation
(whatever the other arguments hold); but a DataFrame missing a required
column is not detected by this upfront validation: `calculate_avg_cqs`
fails later, inside the `groupby`/`agg` computation, with `KeyError`. -/
theorem claim_C6_validation_amended :
    (∀ a : PyArg, (∀ df, a ≠ PyArg.frame df) →
      calculate_avg_cqs a = Except.error PyErr.typeError) ∧
    (∀ a b : PyArg, (∀ df, a ≠ PyArg.frame df) →
      calculate_d_cqs a b = Except.error PyErr.typeError) ∧
    (∀ (df : RawFrame) (b : PyArg), (∀ l, b ≠ PyArg.pylist l) →
      calculate_d_cqs (PyArg.frame df) b = Except.error PyErr.typeError) ∧
    (∀ a b c : PyArg, (∀ df, a ≠ PyArg.frame df) →
      calculate_dd_cqs a b c = Except.error PyErr.typeError) ∧
    (∀ (df : RawFrame) (b c : PyArg), (∀ l, b ≠ PyArg.pylist l) →
      calculate_dd_cqs (PyArg.frame df) b c = Except.error PyErr.typeError) ∧
    (∀ (df : RawFrame) (l : List Cell) (c : PyArg), (∀ s, c ≠ PyArg.pystr s) →
      calculate_dd_cqs (PyArg.frame df) (PyArg.pylist l) c = Except.error PyErr.typeError) ∧
    (∀ df : RawFrame,
      df.col "sample" = none ∨ df.col "target" = none ∨ df.col "cq" = none →
      calculate_avg_cqs (PyArg.frame df) = Except.error PyErr.keyError) := by
  refine ⟨?_, ?_, ?_, ?_, ?_, ?_, ?_⟩
  · intro a ha
    cases a with
    | frame df => exact absurd rfl (ha df)
    | pylist l => rfl
    | pystr s => rfl
    | pyother => rfl
  · intro a b ha
    cases a with
    | frame df => exact absurd rfl (ha df)
    | pylist l => rfl
    | pystr s => rfl
    | pyother => rfl
  · intro df b hb
    cases b with
    | frame d => rfl
    | pylist l => exact absurd rfl (hb l)
    | pystr s => rfl
    | pyother => rfl
  · intro a b c ha
    cases a with
    | frame df => exact absurd rfl (ha df)
    | pylist l => rfl
    | pystr s => rfl
    | pyother => rfl
  · intro df b c hb
    cases b with
    | frame d => rfl
    | pylist l => exact absurd rfl (hb l)
    | pystr s => rfl
    | pyother => rfl
  · intro df l c hc
    cases c with
    | frame d => rfl
    | pylist m => rfl
    | pystr s => exact absurd rfl (hc s)
    | pyother => rfl
  · intro df h
    rcases h with h | h | h
    · rcases h2 : df.col "target" with _ | ts <;>
        rcases h3 : df.col "cq" with _ | qs <;>
          simp [calculate_avg_cqs, h, h2, h3]
    · rcases h1 : df.col "sample" with _ | ss <;>
        rcases h3 : df.col "cq" with _ | qs <;>
          simp [calculate_avg_cqs, h, h1, h3]
    · rcases h1 : df.col "sample" with _ | ss <;>
        rcases h2 : df.col "target" with _ | ts <;>
          simp [calculate_avg_cqs, h, h1, h2]

/-- C9: every call of `calculate_dd_cqs` whose three arguments pass the
`isinstance` checks raises `NameError` — line 141 evaluates the undefined
module-level name `q` — and therefore never returns a table. -/
theorem claim_C9_nameerror (df : RawFrame) (icl : List Cell) (cal : String) :
    calculate_dd_cqs (PyArg.frame df) (PyArg.pylist icl) (PyArg.pystr cal) =
      Except.error PyErr.nameError ∧
    ∀ out, calculate_dd_cqs (PyArg.frame df) (PyArg.pylist icl) (PyArg.pystr cal) ≠
      Except.ok out := by
  exact ⟨rfl, fun out h => Except.noConfusion h⟩

/-- C3 concerns the intended output of `calculate_dd_cqs`, but the code
never produces one: on the spec's own worked example (a well-formed table
with samples `S1`/`Cal`, targets `Actin`/`GeneX`, controls `[Actin]`,
calibrator `Cal`) the call raises `NameError` at line 141 (`q` is
undefined) before computing any `dd_cq` or `fc`. -/
theorem claim_C3_code_raises :
    calculate_dd_cqs (PyArg.frame (toFrame
        [⟨"S1", "Actin", some 20⟩, ⟨"S1", "Actin", some 20⟩,
         ⟨"S1", "GeneX", some 25⟩, ⟨"S1", "GeneX", some 25⟩,
         ⟨"Cal", "Actin", some 19⟩, ⟨"Cal", "Actin", some 19⟩,
         ⟨"Cal", "GeneX", some 24⟩, ⟨"Cal", "GeneX", some 24⟩]))
      (PyArg.pylist [Cell.str "Actin"]) (PyArg.pystr "Cal") =
      Except.error PyErr.nameError := rfl

/-- C7 says a calibrator matching no sample must not raise, but the code
raises `NameError` on every well-formed call, including this one whose
calibrator `NoSuchSample` matches no sample of the table. -/
theorem claim_C7_code_raises :
    calculate_dd_cqs (PyArg.frame (toFrame
        [⟨"S1", "Actin", some 20⟩, ⟨"S1", "GeneX", some 25⟩]))
      (PyArg.pylist [Cell.str "Actin"]) (PyArg.pystr "NoSuchSample") =
      Except.error PyErr.nameError := rfl

theorem claim_C1_witness :
    ∃ out, calculate_avg_cqs (PyArg.frame (toFrame
      [⟨"S2", "T1", some 20⟩, ⟨"S1", "T1", some 21⟩, ⟨"S2", "T1", some 22⟩])) =
        Except.ok out ∧
      out.map (fun a => (a.sample, a.target)) =
        [(Cell.str "S2", Cell.str "T1"), (Cell.str "S1", Cell.str "T1")] := by
  obtain ⟨out, hok, hmap, _, _, _⟩ := claim_C1_stage1_rows
    [⟨"S2", "T1", some 20⟩, ⟨"S1", "T1", some 21⟩, ⟨"S2", "T1", some 22⟩]
  refine ⟨out, hok, ?_⟩
  rw [hmap]
  simp [inputKeys, dropDuplicates, dropDupAux]

theorem claim_C2_witness :
    ∃ out, calculate_d_cqs (PyArg.frame (toFrame
        [⟨"S1", "Actin", some 20⟩, ⟨"S1", "GeneX", some 25⟩]))
      (PyArg.pylist [Cell.str "Actin"]) = Except.ok out ∧
    ∀ r ∈ out, (r.target ∈ [Cell.str "Actin"] → r.d_cq = none) ∧
      (r.target ∉ [Cell.str "Actin"] → r.d_cq = optSub r.mean r.mean_ic) := by
  obtain ⟨out, hok, hprop⟩ := claim_C2_d_cq_amended
    [⟨"S1", "Actin", some 20⟩, ⟨"S1", "GeneX", some 25⟩] [Cell.str "Actin"]
  exact ⟨out, hok, fun r hr => ⟨(hprop r hr).1, (hprop r hr).2.1⟩⟩

theorem claim_C4_witness :
    ∃ out, calculate_avg_cqs (PyArg.frame (toFrame
        [⟨"S1", "T1", some 20⟩, ⟨"S1", "T1", none⟩])) = Except.ok out ∧
      ∃ a ∈ out, a.mean = some 20 ∧ a.stdSq = none := by
  obtain ⟨out, hok, a, ha, _, _, _, hm, hstd, _⟩ := claim_C4_nan_skipped
    [⟨"S1", "T1", some 20⟩, ⟨"S1", "T1", none⟩] "S1" "T1" (by simp [inputKeys])
  have hvs : (replicateCqs [⟨"S1", "T1", some 20⟩, ⟨"S1", "T1", none⟩] "S1" "T1").filterMap id =
      [(20 : ℚ)] := by
    simp [replicateCqs]
  refine ⟨out, hok, a, ha, ?_, hstd [(20 : ℚ)] hvs (by norm_num)⟩
  have := hm [(20 : ℚ)] hvs (by simp)
  rw [this]
  norm_num

theorem claim_C5_witness :
    ∃ avgOut out,
      calculate_avg_cqs (PyArg.frame (toFrame
        [⟨"S1", "A", some 20⟩, ⟨"S1", "B", some 30⟩,
         ⟨"S1", "B", some 32⟩, ⟨"S1", "G", some 25⟩])) = Except.ok avgOut ∧
      calculate_d_cqs (PyArg.frame (toFrame
        [⟨"S1", "A", some 20⟩, ⟨"S1", "B", some 30⟩,
         ⟨"S1", "B", some 32⟩, ⟨"S1", "G", some 25⟩]))
        (PyArg.pylist [Cell.str "A", Cell.str "B"]) = Except.ok out ∧
      (∀ r1 ∈ out, ∀ r2 ∈ out, r1.sample = r2.sample → r1.mean_ic = r2.mean_ic) ∧
      (∀ r ∈ out, r.mean_ic = nanMean
        (((avgOut.filter (fun a => decide (a.target ∈ [Cell.str "A", Cell.str "B"]))).filter
          (fun a => decide (a.sample = r.sample))).map (fun a => a.mean))) :=
  claim_C5_mean_ic
    [⟨"S1", "A", some 20⟩, ⟨"S1", "B", some 30⟩,
     ⟨"S1", "B", some 32⟩, ⟨"S1", "G", some 25⟩]
    [Cell.str "A", Cell.str "B"]

theorem claim_C6_witness :
    calculate_avg_cqs PyArg.pyother = Except.error PyErr.typeError ∧
    calculate_d_cqs (PyArg.frame (toFrame [])) (PyArg.pystr "x") =
      Except.error PyErr.typeError ∧
    calculate_dd_cqs (PyArg.frame (toFrame [])) (PyArg.pylist []) PyArg.pyother =
      Except.error PyErr.typeError ∧
    calculate_avg_cqs (PyArg.frame (RawFrame.mk [("sample", []), ("target", [])])) =
      Except.error PyErr.keyError := by
  refine ⟨claim_C6_validation_amended.1 PyArg.pyother (fun df h => PyArg.noConfusion h),
    claim_C6_validation_amended.2.2.1 (toFrame []) (PyArg.pystr "x")
      (fun l h => PyArg.noConfusion h),
    claim_C6_validation_amended.2.2.2.2.2.1 (toFrame []) [] PyArg.pyother
      (fun s h => PyArg.noConfusion h),
    claim_C6_validation_amended.2.2.2.2.2.2
      (RawFrame.mk [("sample", []), ("target", [])]) (Or.inr (Or.inr rfl))⟩

theorem claim_C8_witness :
    ∃ out, calculate_avg_cqs (PyArg.frame (toFrame
        [⟨"S1", "T1", some 20⟩, ⟨"S1", "T1", some 22⟩])) = Except.ok out ∧
      ∃ a ∈ out, a.mean = some 21 ∧ a.stdSq = some 2 := by
  obtain ⟨out, hok, a, ha, _, _, hm, _, hstd⟩ := claim_C8_group_stats
    [⟨"S1", "T1", some 20⟩, ⟨"S1", "T1", some 22⟩] "S1" "T1" [20, 22]
    (by simp [replicateCqs]) (by simp)
  refine ⟨out, hok, a, ha, ?_, ?_⟩
  · rw [hm]
    norm_num
  · rw [hstd (by norm_num)]
    norm_num

theorem claim_C9_witness :
    calculate_dd_cqs (PyArg.frame (toFrame [])) (PyArg.pylist [])
      (PyArg.pystr "Cal") = Except.error PyErr.nameError :=
  (claim_C9_nameerror (toFrame []) [] "Cal").1

theorem claim_C10_witness :
    ∃ out, calculate_d_cqs (PyArg.frame (toFrame [⟨"S1", "T1", some 20⟩]))
      (PyArg.pylist []) = Except.ok out ∧
      ∀ r ∈ out, r.mean_ic = none ∧ r.d_cq = none := by
  obtain ⟨out, hok, _, hprop⟩ := claim_C10_empty_controls [⟨"S1", "T1", some 20⟩]
  exact ⟨out, hok, hprop⟩
